import Mathlib

/-!
Verification development for the email-onboarding core of the repository
(`fastapi_backend/app`): Gmail thread reading and MIME body extraction
(`services/gmail_service.py`), classification and labeling
(`services/labeling_service.py`), and the per-user onboarding scheduler
(`workers/onboarding_worker.py`).

Python dictionaries with optional keys are embedded as structures with
`Option` fields (`none` = key absent); Python truthiness tests on strings
and lists are embedded as explicit emptiness checks.
-/

namespace EmailCore

/-! ## Base64url and UTF-8 decoding (`GmailService._decode_body`)

`_decode_body` runs `base64.urlsafe_b64decode` and then decodes the bytes
as UTF-8 with `errors='ignore'`, returning `""` when the input is absent,
empty, or malformed.  The decoder below models that pipeline: the urlsafe
alphabet is translated to the standard one, characters outside the
alphabet are discarded, padding is validated (a violation is the
exception path of the Python code), and the resulting 6-bit groups are
reassembled into bytes.  UTF-8 decoding keeps well-formed scalar
sequences and skips invalid bytes, as `errors='ignore'` does.
-/

/-- Value of a standard-alphabet base64 character, `none` for
non-alphabet characters. -/
def b64CharVal (c : Char) : Option Nat :=
  if 'A' ≤ c ∧ c ≤ 'Z' then some (c.toNat - 65)
  else if 'a' ≤ c ∧ c ≤ 'z' then some (c.toNat - 71)
  else if '0' ≤ c ∧ c ≤ '9' then some (c.toNat + 4)
  else if c = '+' then some 62
  else if c = '/' then some 63
  else none

/-- Reassemble 6-bit groups into bytes; groups arrive in quads, with a
final quad of 2 or 3 groups allowed (1 leftover group is malformed). -/
def b64DecodeQuads : List Nat → Option (List Nat)
  | [] => some []
  | [_] => none
  | [a, b] => some [a * 4 + b / 16]
  | [a, b, c] => some [a * 4 + b / 16, b % 16 * 16 + c / 4]
  | a :: b :: c :: d :: rest =>
    match b64DecodeQuads rest with
    | some tail => some ((a * 4 + b / 16) :: (b % 16 * 16 + c / 4) :: (c % 4 * 64 + d) :: tail)
    | none => none

/-- Model of `base64.urlsafe_b64decode`: translate `-_` to `+/`, discard
characters outside the alphabet, validate padding, decode; `none` is the
`binascii` error path. -/
def b64UrlsafeDecode (s : String) : Option (List Nat) :=
  let translated := s.data.map fun c => if c = '-' then '+' else if c = '_' then '/' else c
  let kept := translated.filter fun c => (b64CharVal c).isSome || c = '='
  let mainPart := kept.takeWhile fun c => c ≠ '='
  let padPart := kept.dropWhile fun c => c ≠ '='
  if (padPart.all fun c => c = '=') ∧ padPart.length ≤ 2 ∧
      (mainPart.length + padPart.length) % 4 = 0 then
    b64DecodeQuads (mainPart.map fun c => (b64CharVal c).getD 0)
  else none

/-- A UTF-8 continuation byte. -/
def utf8Cont (b : Nat) : Bool := 128 ≤ b && b < 192

/-- UTF-8 decoding with invalid bytes skipped, the behavior of Python's
`bytes.decode('utf-8', errors='ignore')` (up to how far a malformed
multi-byte prefix is skipped, which no claim exercises). -/
def utf8DecodeIgnore : List Nat → List Char
  | [] => []
  | b :: rest =>
    let skipLead := utf8DecodeIgnore rest
    if b < 128 then Char.ofNat b :: utf8DecodeIgnore rest
    else if 194 ≤ b ∧ b ≤ 223 then
      match rest with
      | b2 :: rest2 =>
        if utf8Cont b2 then Char.ofNat ((b - 192) * 64 + (b2 - 128)) :: utf8DecodeIgnore rest2
        else skipLead
      | [] => []
    else if 224 ≤ b ∧ b ≤ 239 then
      match rest with
      | b2 :: b3 :: rest3 =>
        if utf8Cont b2 ∧ utf8Cont b3 ∧ ¬(b = 224 ∧ b2 < 160) ∧ ¬(b = 237 ∧ 160 ≤ b2) then
          Char.ofNat (((b - 224) * 64 + (b2 - 128)) * 64 + (b3 - 128)) :: utf8DecodeIgnore rest3
        else skipLead
      | _ => []
    else if 240 ≤ b ∧ b ≤ 244 then
      match rest with
      | b2 :: b3 :: b4 :: rest4 =>
        if utf8Cont b2 ∧ utf8Cont b3 ∧ utf8Cont b4 ∧
            ¬(b = 240 ∧ b2 < 144) ∧ ¬(b = 244 ∧ 144 ≤ b2) then
          Char.ofNat ((((b - 240) * 64 + (b2 - 128)) * 64 + (b3 - 128)) * 64 + (b4 - 128)) ::
            utf8DecodeIgnore rest4
        else skipLead
      | _ => []
    else utf8DecodeIgnore rest

/-- `GmailService._decode_body`: `""` on absent or empty data (`if not
data`), base64url-decode then UTF-8-decode otherwise, `""` on a decode
exception. -/
def decode_body (data : Option String) : String :=
  match data with
  | none => ""
  | some s =>
    if s = "" then ""
    else
      match b64UrlsafeDecode s with
      | some bytes => String.mk (utf8DecodeIgnore bytes)
      | none => ""

/-! ## Content-part trees (`_find_body_in_parts`, `_extract_attachments`) -/

/-- The `body` dictionary of a Gmail content part: `data` (inline
base64url content), `size`, `attachmentId`; `none` = key absent. -/
structure PartBody where
  data : Option String
  size : Nat
  attachmentId : Option String
deriving DecidableEq

/-- A Gmail content part: `mimeType` (with `''` for an absent key, as
`part.get('mimeType', '')` reads it), optional `filename`, optional
`body` dictionary, and an optional nested part list (`none` = the
`'parts'` key is absent, `some []` = present but empty). -/
inductive GPart : Type where
  | mk (mimeType : String) (filename : Option String) (body : Option PartBody)
      (parts : Option (List GPart)) : GPart

/-- The part's `mimeType` field. -/
def GPart.mimeType : GPart → String
  | .mk mt _ _ _ => mt

/-- The part's `filename` field. -/
def GPart.filename : GPart → Option String
  | .mk _ fn _ _ => fn

/-- The part's `body` field. -/
def GPart.body : GPart → Option PartBody
  | .mk _ _ bd _ => bd

/-- The part's nested `parts` field. -/
def GPart.parts : GPart → Option (List GPart)
  | .mk _ _ _ ps => ps

/-- Whether `'data' in part.get('body', {})` holds: the `body` dictionary
exists and carries a `data` key (even an empty string counts). -/
def partBodyHasData (bd : Option PartBody) : Bool :=
  match bd with
  | some b => b.data.isSome
  | none => false

/-- The inline data of a part's body, when both keys are present. -/
def partBodyData (bd : Option PartBody) : Option String :=
  bd.bind PartBody.data

/-- Loop body of `_find_body_in_parts`, with `bodyText` the running
HTML-fallback accumulator.  Per part: if a nested `'parts'` key exists,
recurse into it (the accumulator restarts at `""` there) and return the
result when non-empty, else overwrite the accumulator with it; then a
`text/plain` part with inline data returns its decoded body at once; a
`text/html` part with inline data updates the accumulator; the
accumulator is returned when the list ends. -/
def find_body_aux (bodyText : String) : List GPart → String
  | [] => bodyText
  | GPart.mk mt _ bd ps :: rest =>
    match ps with
    | some subs =>
      let bt := find_body_aux "" subs
      if bt ≠ "" then bt
      else if mt = "text/plain" ∧ partBodyHasData bd = true then decode_body (partBodyData bd)
      else if mt = "text/html" ∧ partBodyHasData bd = true then
        find_body_aux (decode_body (partBodyData bd)) rest
      else find_body_aux "" rest
    | none =>
      if mt = "text/plain" ∧ partBodyHasData bd = true then decode_body (partBodyData bd)
      else if mt = "text/html" ∧ partBodyHasData bd = true then
        find_body_aux (decode_body (partBodyData bd)) rest
      else find_body_aux bodyText rest

/-- `GmailService._find_body_in_parts`: `""` on an absent or empty part
list (`if not parts`), else the traversal loop started with an empty
fallback accumulator. -/
def find_body_in_parts (parts : Option (List GPart)) : String :=
  match parts with
  | none => ""
  | some [] => ""
  | some ps => find_body_aux "" ps

/-- A `text/plain` part carrying inline body data, the condition of the
early-return branch of `_find_body_in_parts`. -/
def isPlainWithData (q : GPart) : Bool :=
  q.mimeType == "text/plain" && partBodyHasData q.body

/-- Attachment metadata collected by `_extract_attachments`. -/
structure AttachmentInfo where
  filename : String
  mimeType : String
  size : Nat
  attachmentId : String
deriving DecidableEq

/-- `GmailService._extract_attachments`: recursively flattens nested
part lists (nested attachments first, as `list.extend` before
`list.append` orders them); a part contributes iff its `filename` is
present and non-empty (truthy), its `body` key is present, and the body
carries a truthy `attachmentId`. -/
def extract_attachments : List GPart → List AttachmentInfo
  | [] => []
  | GPart.mk mt fn bd ps :: rest =>
    let nested :=
      match ps with
      | some subs => extract_attachments subs
      | none => []
    let own :=
      match fn, bd with
      | some f, some b =>
        if f ≠ "" then
          match b.attachmentId with
          | some aid => if aid ≠ "" then [AttachmentInfo.mk f mt b.size aid] else []
          | none => []
        else []
      | _, _ => []
    nested ++ own ++ extract_attachments rest

/-! ## Thread reconstruction (`GmailService.email_reader`)

`email_reader` lists a page of message ids, fetches each one's full
thread from the provider, and rebuilds every contained message.  The
provider round-trips themselves are external; the embedding takes the
provider's thread data (`RawThread`) as input and models the pure
reconstruction the source performs on it. -/

/-- A message as returned by the provider inside a thread: `payload`
fields separated out (`headers`, top-level `body`, nested `parts`). -/
structure Payload where
  headers : List (String × String)
  body : Option PartBody
  parts : Option (List GPart)

/-- A raw provider message (`msg` in the `thread.get('messages', [])`
loop). -/
structure RawMessage where
  id : String
  threadId : String
  snippet : String
  payload : Payload

/-- A raw provider thread (`threads().get(...)` response). -/
structure RawThread where
  id : String
  historyId : String
  messages : List RawMessage

/-- `_extract_headers` followed by `header_dict.get(name, '')`: the
source keeps the four relevant headers in a dictionary (later duplicates
overwrite earlier ones), so a lookup returns the last occurrence of the
name, or `''`. -/
def header_get (headers : List (String × String)) (name : String) : String :=
  match (headers.filter fun h => h.1 == name).getLast? with
  | some h => h.2
  | none => ""

/-- The body-text selection of `email_reader` for one message: use
`_find_body_in_parts` when the payload has a `'parts'` key, else fall
back to the payload's own `body.data` when present, else `""`. -/
def extract_body_text (p : Payload) : String :=
  match p.parts with
  | some ps => find_body_in_parts (some ps)
  | none =>
    match p.body with
    | some b =>
      match b.data with
      | some d => decode_body (some d)
      | none => ""
    | none => ""

/-- A reconstructed message as appended to `thread_messages`. -/
structure EmailMessage where
  id : String
  threadId : String
  date : String
  msgFrom : String
  msgTo : String
  subject : String
  snippet : String
  body : String
  attachments : List AttachmentInfo
  isThreadMessage : Bool
deriving DecidableEq

/-- Reconstruction of one message given the containing thread's message
count: headers, body text, attachments (from `payload.get('parts', [])`),
and `isThreadMessage` = thread has more than one message. -/
def build_thread_message (threadLen : Nat) (msg : RawMessage) : EmailMessage :=
  EmailMessage.mk msg.id msg.threadId
    (header_get msg.payload.headers "Date")
    (header_get msg.payload.headers "From")
    (header_get msg.payload.headers "To")
    (header_get msg.payload.headers "Subject")
    msg.snippet
    (extract_body_text msg.payload)
    (extract_attachments
      (match msg.payload.parts with
       | some ps => ps
       | none => []))
    (decide (1 < threadLen))

/-- One entry of the `emails` result list: thread id, history id, the
main message (first in the thread, `None` kept as an option to mirror
`thread_messages[0] if thread_messages else None`), and all messages. -/
structure ThreadEntry where
  threadId : String
  historyId : String
  mainEmail : Option EmailMessage
  threadMessages : List EmailMessage
deriving DecidableEq

/-- Reconstruction of one thread: build every message, take the first as
the main email, drop the thread entirely when no messages reconstruct. -/
def build_thread (t : RawThread) : Option ThreadEntry :=
  match t.messages.map (build_thread_message t.messages.length) with
  | [] => none
  | main :: rest => some (ThreadEntry.mk t.id t.historyId (some main) (main :: rest))

/-- The dictionary `email_reader` returns: `nextPointer` (the provider's
next page token) and the reconstructed `emails`. -/
structure FetchOutput where
  nextPointer : Option String
  emails : List ThreadEntry
deriving DecidableEq

/-- `email_reader`'s successful result, given the page's next token and
the provider threads fetched for the listed messages. -/
def email_reader_result (nextPageToken : Option String) (threads : List RawThread) : FetchOutput :=
  FetchOutput.mk nextPageToken (threads.filterMap build_thread)

/-! ## Classification and labeling (`LabelingService`) -/

/-- `LabelingService.GMAIL_SYSTEM_LABELS`. -/
def GMAIL_SYSTEM_LABELS : List String :=
  ["INBOX", "IMPORTANT", "STARRED", "CATEGORY_PROMOTIONS", "CATEGORY_UPDATES",
   "CATEGORY_SOCIAL", "CATEGORY_FORUMS"]

/-- The `valid_labels` list of `_analyze_with_anthropic`. -/
def valid_labels : List String := ["action_needed", "fyi", "spam", "extra"]

/-- Python's `str.strip()`: drop whitespace from both ends. -/
def pyStrip (s : String) : String :=
  String.mk ((s.data.dropWhile Char.isWhitespace).reverse.dropWhile Char.isWhitespace).reverse

/-- Python's `str.lower()` (on the ASCII range the answers live in). -/
def pyLower (s : String) : String :=
  String.mk (s.data.map Char.toLower)

/-- `LabelingService._analyze_with_anthropic`.  The provider round-trip
is the input: `some s` is the text of the model's answer, `none` is any
exception on the way to it (API failure, or an empty `message.content`
making `content[0]` raise).  The answer is stripped and lowercased and
accepted only when it is one of the four labels; every other path
returns the default label `'extra'`. -/
def analyze_with_anthropic (providerResponse : Option String) : String :=
  match providerResponse with
  | none => "extra"
  | some resp =>
    let label := pyLower (pyStrip resp)
    if valid_labels.contains label then label else "extra"

/-- The `label_name_map` dictionary lookup with default `'EXTRA'`. -/
def label_name_map (label : String) : String :=
  if label = "action_needed" then "ACTION_NEEDED"
  else if label = "fyi" then "FYI"
  else if label = "spam" then "SPAM"
  else if label = "extra" then "EXTRA"
  else "EXTRA"

/-- The combined-text loop of `label_email`: start from the main body,
then append `"\n" + body` for every message of `thread_messages` whose
body is truthy (non-empty). -/
def combined_text (mainBody : String) (msgs : List EmailMessage) : String :=
  msgs.foldl (fun acc msg => if msg.body ≠ "" then acc ++ "\n" ++ msg.body else acc) mainBody

/-- Observable external actions of `label_email`, in issue order. -/
inductive LabelEvent : Type where
  | classify (text : String) (result : String) : LabelEvent
  | removeLabels (messageId : String) (labelIds : List String) : LabelEvent
  | addLabel (messageId : String) (labelId : String) : LabelEvent
deriving DecidableEq

/-- The per-email body of the `label_email` loop, as the list of external
actions it issues.  `analyze` is the classifier (`_analyze_with_anthropic`
with its provider round-trip fixed) and `resolveLabel` is
`get_or_create_label_id`.  An email with no main message, or whose main
message is a thread message, is skipped with no action; otherwise the
combined text is classified, the system labels are removed from the main
message, and the resolved label id is added to it. -/
def process_email (analyze resolveLabel : String → String) (e : ThreadEntry) :
    List LabelEvent :=
  match e.mainEmail with
  | none => []
  | some m =>
    if m.isThreadMessage then []
    else
      let combined := combined_text m.body e.threadMessages
      let label := analyze combined
      let labelId := resolveLabel (label_name_map label)
      [LabelEvent.classify combined label,
       LabelEvent.removeLabels m.id GMAIL_SYSTEM_LABELS,
       LabelEvent.addLabel m.id labelId]

/-- `label_email` over a whole `email_reader` output: the actions of each
email entry, in order. -/
def label_email_trace (analyze resolveLabel : String → String) (out : FetchOutput) :
    List LabelEvent :=
  (out.emails.map (process_email analyze resolveLabel)).flatten

/-! ## Label modification (`GmailService.modify_message_labels`) -/

/-- Truthiness of an optional Python list: `None` and `[]` are falsy. -/
def pyTruthyOptList (l : Option (List String)) : Bool :=
  match l with
  | none => false
  | some xs => !xs.isEmpty

/-- The `modify_body` dictionary sent by `modify_message_labels`. -/
structure ModifyBody where
  addLabelIds : Option (List String)
  removeLabelIds : Option (List String)
deriving DecidableEq

/-- `modify_message_labels`: each list is put into the request body only
when truthy (present and non-empty). -/
def modify_message_labels_body (addLabelIds removeLabelIds : Option (List String)) :
    ModifyBody :=
  ModifyBody.mk
    (if pyTruthyOptList addLabelIds then addLabelIds else none)
    (if pyTruthyOptList removeLabelIds then removeLabelIds else none)

/-- Modelled from the spec: the mailbox provider's application of one
modify request to a message's remote label set — the provider is an
external collaborator (spec §6), so its side of `messages().modify` is
not in the source; per the provider contract a modify removes the
`removeLabelIds` and adds the `addLabelIds`, an absent list doing
nothing. -/
def apply_modify_request (labels : Finset String) (body : ModifyBody) : Finset String :=
  (labels \ (body.removeLabelIds.getD []).toFinset) ∪ (body.addLabelIds.getD []).toFinset

/-- One label-synchronization call: build the request body the source
builds, then apply it to the remote label set. -/
def sync_labels (labels : Finset String) (addLabelIds removeLabelIds : Option (List String)) :
    Finset String :=
  apply_modify_request labels (modify_message_labels_body addLabelIds removeLabelIds)

/-! ## Onboarding worker (`OnboardingWorker`) -/

/-- The per-user persisted triple the worker reads and writes:
`last_pointer`, `onboarding_complete`, `last_sync`. -/
structure UserState where
  lastPointer : Option String
  onboardingComplete : Bool
  lastSync : Option Nat
deriving DecidableEq

/-- Outcome of the `email_reader` call for one user in one cycle:
a raised transport/provider error, or a returned output. -/
inductive FetchOutcome : Type where
  | fetchFailure : FetchOutcome
  | ok (nextPointer : Option String) (emails : List ThreadEntry) : FetchOutcome
deriving DecidableEq

/-- Truthiness of an optional Python string: `None` and `''` are falsy. -/
def pyTruthyStr (s : Option String) : Bool :=
  match s with
  | none => false
  | some v => v ≠ ""

/-- `OnboardingWorker.process_user_emails` as a transition on the user's
persisted state, `now` being the cycle's `datetime.utcnow()` timestamp.
A raised fetch error is caught and rolled back, leaving the state
unchanged; an output with no emails returns before any mutation;
otherwise the cursor and sync timestamp are stored and the completion
flag is set when the next pointer is falsy (labeling absorbs its own
errors and does not alter this transition). -/
def process_user_emails (now : Nat) (st : UserState) (fetch : FetchOutcome) : UserState :=
  match fetch with
  | FetchOutcome.fetchFailure => st
  | FetchOutcome.ok nextPointer emails =>
    if emails.isEmpty then st
    else
      UserState.mk nextPointer
        (if pyTruthyStr nextPointer then st.onboardingComplete else true)
        (some now)

/-- One user's treatment in `run_onboarding_cycle`: the query selects
only users with `onboarding_complete == 0`, so a complete user is left
untouched. -/
def cycle_step (now : Nat) (st : UserState) (fetch : FetchOutcome) : UserState :=
  if st.onboardingComplete then st else process_user_emails now st fetch

/-- `run_onboarding_cycle` over the user table, each user paired with
that cycle's fetch outcome for them; users are processed sequentially
and independently (`process_user_emails` swallows its exceptions). -/
def run_onboarding_cycle (now : Nat) (users : List (UserState × FetchOutcome)) :
    List UserState :=
  users.map fun u => cycle_step now u.1 u.2

/-- Repeated scheduler cycles for a single user: each element of `cycles`
is one cycle's timestamp and fetch outcome. -/
def run_cycles (st : UserState) : List (Nat × FetchOutcome) → UserState
  | [] => st
  | c :: rest => run_cycles (cycle_step c.1 st c.2) rest

/-! ## Spec-side formulations and concrete instances used by the claims -/

/-- The newline-joined suffix of the spec's classifier-input description:
one `"\n" ++ body` block per kept body, in order. -/
def spec_join : List String → String
  | [] => ""
  | b :: rest => "\n" ++ b ++ spec_join rest

/-- Modelled from the spec: "build classifier input by concatenating the
main message body with each reply's body (newline-joined, replies in
thread order, empty reply bodies skipped)", applied to a given body
list. -/
def spec_classifier_input (mainBody : String) (bodies : List String) : String :=
  mainBody ++ spec_join (bodies.filter fun b => b ≠ "")

/-- A leaf HTML part whose inline data decodes to `"world"`. -/
def c1HtmlPart : GPart :=
  GPart.mk "text/html" none (some (PartBody.mk (some "d29ybGQ=") 0 none)) none

/-- A leaf plain-text part whose inline data decodes to `"hello"`. -/
def c1PlainPart : GPart :=
  GPart.mk "text/plain" none (some (PartBody.mk (some "aGVsbG8=") 0 none)) none

/-- A single-message provider thread whose message body decodes to
`"hi"` from the payload's top-level body data. -/
def c2thread : RawThread :=
  RawThread.mk "t2" "h2"
    [RawMessage.mk "m21" "t2" "snip" (Payload.mk [] (some (PartBody.mk (some "aGk=") 2 none)) none)]

/-- The reconstructed main (and only) message of `c2thread`. -/
def c2main : EmailMessage :=
  EmailMessage.mk "m21" "t2" "" "" "" "" "snip" "hi" [] false

/-- The reconstructed entry for `c2thread`. -/
def c2entry : ThreadEntry :=
  ThreadEntry.mk "t2" "h2" (some c2main) [c2main]

/-- A two-message provider thread (so both messages are thread replies
by the source's length test). -/
def c5thread : RawThread :=
  RawThread.mk "t5" "h5"
    [RawMessage.mk "m51" "t5" "" (Payload.mk [] none none),
     RawMessage.mk "m52" "t5" "" (Payload.mk [] none none)]

/-- The reconstructed entry for `c5thread`: the main message carries
`isThreadMessage = true`. -/
def c5entry : ThreadEntry :=
  ThreadEntry.mk "t5" "h5"
    (some (EmailMessage.mk "m51" "t5" "" "" "" "" "" "" [] true))
    [EmailMessage.mk "m51" "t5" "" "" "" "" "" "" [] true,
     EmailMessage.mk "m52" "t5" "" "" "" "" "" "" [] true]

/-- A payload with no `'parts'` key whose top-level body data decodes to
`"hi"`. -/
def c10payload : Payload :=
  Payload.mk [] (some (PartBody.mk (some "aGk=") 2 none)) none

/-- A one-message provider thread used to check thread inclusion. -/
def c10thread : RawThread :=
  RawThread.mk "tA" "hA" [RawMessage.mk "mA" "tA" "" (Payload.mk [] none none)]

/-! ## Helper lemmas -/

/-- Entering the loop on a nested part list is the same as the recursive
`self._find_body_in_parts(part['parts'])` call of the source. -/
theorem find_body_in_parts_some (ps : List GPart) :
    find_body_in_parts (some ps) = find_body_aux "" ps := by
  cases ps <;> simp [find_body_in_parts, find_body_aux]

/-- The combined-text loop of `label_email` computes the spec's
newline-joined concatenation over the body list it is given. -/
theorem combined_text_eq_spec (mainBody : String) (msgs : List EmailMessage) :
    combined_text mainBody msgs = spec_classifier_input mainBody (msgs.map EmailMessage.body) := by
  induction msgs generalizing mainBody with
  | nil => simp [combined_text, spec_classifier_input, spec_join]
  | cons m rest ih =>
    by_cases h : m.body = ""
    · have step : combined_text mainBody (m :: rest) = combined_text mainBody rest := by
        show combined_text (if m.body ≠ "" then mainBody ++ "\n" ++ m.body else mainBody) rest = _
        rw [if_neg (by simp [h])]
      rw [step, ih]
      simp [spec_classifier_input, h]
    · have step : combined_text mainBody (m :: rest) =
          combined_text (mainBody ++ "\n" ++ m.body) rest := by
        show combined_text (if m.body ≠ "" then mainBody ++ "\n" ++ m.body else mainBody) rest = _
        rw [if_pos h]
      rw [step, ih]
      simp [spec_classifier_input, spec_join, h, String.append_assoc]

/-- On a flat part list (no part has a nested `'parts'` key) with some
plain-text part carrying inline data, the traversal returns the decoded
data of the first such part, whatever the accumulator holds. -/
theorem find_body_aux_flat_plain (parts : List GPart) (p : GPart) (bt : String)
    (hflat : (parts.all fun q => q.parts.isNone) = true)
    (hfind : parts.find? isPlainWithData = some p) :
    find_body_aux bt parts = decode_body (partBodyData p.body) := by
  induction parts generalizing bt with
  | nil => simp at hfind
  | cons q rest ih =>
    obtain ⟨mt, fn, bd, ps⟩ := q
    simp only [List.all_cons, Bool.and_eq_true] at hflat
    obtain ⟨hq, hrest⟩ := hflat
    have hps : ps = none := by
      cases ps
      · rfl
      · simp [GPart.parts] at hq
    subst hps
    by_cases hpd : isPlainWithData (GPart.mk mt fn bd none) = true
    · rw [List.find?_cons_of_pos _ hpd] at hfind
      obtain rfl : GPart.mk mt fn bd none = p := Option.some.inj hfind
      have hc : mt = "text/plain" ∧ partBodyHasData bd = true := by
        simpa [isPlainWithData, GPart.mimeType, GPart.body] using hpd
      simp [find_body_aux, hc, GPart.body]
    · rw [List.find?_cons_of_neg _ hpd] at hfind
      have hc : ¬(mt = "text/plain" ∧ partBodyHasData bd = true) := by
        simpa [isPlainWithData, GPart.mimeType, GPart.body] using hpd
      by_cases hh : mt = "text/html" ∧ partBodyHasData bd = true
      · simp only [find_body_aux, if_neg hc, if_pos hh]
        exact ih _ hrest hfind
      · simp only [find_body_aux, if_neg hc, if_neg hh]
        exact ih _ hrest hfind

/-- Claim C1, counterexample: a tree holding both an HTML part (nested one
level down, decoding to `"world"`) and a plain-text part (a later
top-level sibling, decoding to `"hello"`), both with inline data, on
which `_find_body_in_parts` returns the HTML content: the recursive call
short-circuits on any non-empty result, not only on plain text. -/
theorem find_body_nested_html_shadows_plain :
    find_body_in_parts
        (some [GPart.mk "multipart/alternative" none none (some [c1HtmlPart]), c1PlainPart]) =
      "world" ∧
    c1PlainPart.mimeType = "text/plain" ∧ partBodyHasData c1PlainPart.body = true ∧
    decode_body (partBodyData c1PlainPart.body) = "hello" ∧ ("world" : String) ≠ "hello" := by
  refine ⟨?_, rfl, rfl, by decide, by decide⟩
  have h1 : decode_body (some "d29ybGQ=") = "world" := by decide
  simp [find_body_in_parts, find_body_aux, c1HtmlPart, c1PlainPart,
    partBodyHasData, partBodyData, h1]

/-- Claim C1 (amended): on a part list all of whose parts are leaves (no
nested `'parts'` key anywhere), containing an HTML part with inline data
and a plain-text part with inline data, `_find_body_in_parts` returns
the decoded content of the first plain-text part carrying inline data,
regardless of the sibling order of the HTML and plain-text parts. -/
theorem find_body_flat_plaintext_precedence (parts : List GPart) (p : GPart)
    (hflat : (parts.all fun q => q.parts.isNone) = true)
    (_hQhtml : (parts.any fun q => q.mimeType == "text/html" && partBodyHasData q.body) = true)
    (hfind : parts.find? isPlainWithData = some p) :
    find_body_in_parts (some parts) = decode_body (partBodyData p.body) := by
  rw [find_body_in_parts_some]
  exact find_body_aux_flat_plain parts p "" hflat hfind

/-- Claim C1, witness: on the flat list `[html, plain]` (HTML first), the
returned body is the decoded plain-text content `"hello"`. -/
theorem find_body_flat_plaintext_precedence_checked :
    find_body_in_parts (some [c1HtmlPart, c1PlainPart]) = "hello" :=
  (find_body_flat_plaintext_precedence [c1HtmlPart, c1PlainPart] c1PlainPart
    rfl rfl rfl).trans (by decide)

/-- Claim C4: a fetch error for one user leaves that user's persisted cursor,
completion flag and sync timestamp unchanged, and every other user in
the same cycle (before or after) is still processed exactly as they
would be alone. -/
theorem fetch_error_frame_and_continuation (now : Nat) (st : UserState)
    (pre post : List (UserState × FetchOutcome)) :
    process_user_emails now st FetchOutcome.fetchFailure = st ∧
    run_onboarding_cycle now (pre ++ (st, FetchOutcome.fetchFailure) :: post) =
      run_onboarding_cycle now pre ++ st :: run_onboarding_cycle now post := by
  refine ⟨rfl, ?_⟩
  simp [run_onboarding_cycle, cycle_step, process_user_emails]

/-- Claim C6: `_analyze_with_anthropic` never lets a provider failure escape
and always returns one of the four labels: a failed round-trip gives
`'extra'`; a successful answer is stripped and lowercased and returned
only when it equals one of the four labels, with every mismatch
(including the empty answer and `"maybe"`) giving `'extra'`. -/
theorem analyze_total_and_default :
    analyze_with_anthropic none = "extra" ∧
    (∀ s, analyze_with_anthropic (some s) =
      if pyLower (pyStrip s) ∈ valid_labels then pyLower (pyStrip s) else "extra") ∧
    (∀ r, analyze_with_anthropic r ∈ valid_labels) ∧
    analyze_with_anthropic (some "") = "extra" ∧
    analyze_with_anthropic (some "maybe") = "extra" ∧
    analyze_with_anthropic (some " FYI ") = "fyi" := by
  have key : ∀ s : String, analyze_with_anthropic (some s) =
      if pyLower (pyStrip s) ∈ valid_labels then pyLower (pyStrip s) else "extra" := by
    intro s
    show (if valid_labels.contains (pyLower (pyStrip s)) then pyLower (pyStrip s) else "extra") = _
    by_cases h : pyLower (pyStrip s) ∈ valid_labels
    · rw [if_pos (List.elem_eq_true_of_mem h), if_pos h]
    · rw [if_neg (fun hc => h (List.mem_of_elem_eq_true hc)), if_neg h]
  refine ⟨rfl, key, fun r => ?_, by decide, by decide, by decide⟩
  cases r with
  | none => simp [analyze_with_anthropic, valid_labels]
  | some s =>
    rw [key s]
    by_cases h : pyLower (pyStrip s) ∈ valid_labels
    · rw [if_pos h]; exact h
    · rw [if_neg h]; simp [valid_labels]

/-- Claim C7: a successful fetch returning zero threads leaves the user's
cursor, completion flag and sync timestamp unchanged, whatever next-page
token it carried. -/
theorem empty_batch_state_unchanged (now : Nat) (st : UserState) (np : Option String) :
    process_user_emails now st (FetchOutcome.ok np []) = st := rfl

/-- Claim C2, counterexample: on a single-message thread with main body
`"hi"` (a thread with no replies, main message not a thread-reply), the
claimed classifier input — main body plus newline-joined reply bodies —
is `"hi"`, but the loop of `label_email` iterates over all of
`thread_messages` including the main message itself, so the classifier
receives `"hi\nhi"`. -/
theorem combined_text_duplicates_main_body :
    build_thread c2thread = some c2entry ∧
    c2entry.mainEmail = some c2main ∧
    c2main.isThreadMessage = false ∧
    c2main.body = "hi" ∧
    c2entry.threadMessages = [c2main] ∧
    spec_classifier_input c2main.body ((c2entry.threadMessages.drop 1).map EmailMessage.body) =
      "hi" ∧
    process_email (fun _ => "extra") (fun _ => "Label_7") c2entry =
      [LabelEvent.classify "hi\nhi" "extra",
       LabelEvent.removeLabels "m21" GMAIL_SYSTEM_LABELS,
       LabelEvent.addLabel "m21" "Label_7"] ∧
    ("hi\nhi" : String) ≠ "hi" := by
  refine ⟨?_, rfl, rfl, rfl, rfl, by decide, by decide, by decide⟩
  have hd : decode_body (some "aGk=") = "hi" := by decide
  simp [build_thread, c2thread, c2entry, c2main, build_thread_message, extract_body_text,
    extract_attachments, header_get, hd]

/-- Claim C2 (amended): for a processed thread whose main message is not a
thread-reply, the classifier input is the main body concatenated with
the newline-joined non-empty bodies of **all** the thread's messages —
the main message included, not only the replies — so the main body
occurs twice whenever it is non-empty. -/
theorem process_email_classify_text_formula (analyze resolveLabel : String → String)
    (e : ThreadEntry) (m : EmailMessage)
    (h1 : e.mainEmail = some m) (h2 : m.isThreadMessage = false) :
    process_email analyze resolveLabel e =
      [LabelEvent.classify
        (spec_classifier_input m.body (e.threadMessages.map EmailMessage.body))
        (analyze (spec_classifier_input m.body (e.threadMessages.map EmailMessage.body))),
       LabelEvent.removeLabels m.id GMAIL_SYSTEM_LABELS,
       LabelEvent.addLabel m.id (resolveLabel (label_name_map
        (analyze (spec_classifier_input m.body (e.threadMessages.map EmailMessage.body)))))] := by
  simp [process_email, h1, h2, combined_text_eq_spec]

/-- Claim C2, witness: the amended formula evaluated on the concrete
single-message entry; the spec-side formula over all messages gives
`"hi\nhi"`, which is what the classifier is called with. -/
theorem process_email_classify_text_formula_checked :
    process_email (fun _ => "maybe") (fun _ => "LID") c2entry =
      [LabelEvent.classify "hi\nhi" "maybe",
       LabelEvent.removeLabels "m21" GMAIL_SYSTEM_LABELS,
       LabelEvent.addLabel "m21" "LID"] := by
  rw [process_email_classify_text_formula (fun _ => "maybe") (fun _ => "LID") c2entry c2main
    rfl rfl]
  decide

/-- Claim C3, counterexample: a successful fetch returning zero threads and an
absent next cursor leaves the completion flag false, although the
fetched batch carries an absent next cursor — the flag does not flip
exactly on absent-cursor batches. -/
theorem empty_batch_absent_cursor_no_flip :
    process_user_emails 0 (UserState.mk none false none) (FetchOutcome.ok none []) =
      UserState.mk none false none ∧
    (UserState.mk none false none).onboardingComplete = false := ⟨rfl, rfl⟩

/-- Claim C3 (amended): the completion flag never reverses (so it flips
false→true at most once over any sequence of cycles), and a cycle flips
it exactly when its fetch succeeds, returns a non-empty thread list, and
carries a falsy next cursor — a successful empty batch leaves the flag
unchanged even when its cursor is absent. -/
theorem onboarding_complete_monotone_flip_iff (now : Nat) (st : UserState) (f : FetchOutcome)
    (cycles : List (Nat × FetchOutcome)) :
    (st.onboardingComplete = true →
      (process_user_emails now st f).onboardingComplete = true) ∧
    (st.onboardingComplete = false →
      ((process_user_emails now st f).onboardingComplete = true ↔
        ∃ np emails, f = FetchOutcome.ok np emails ∧ emails ≠ [] ∧ pyTruthyStr np = false)) ∧
    (st.onboardingComplete = true → (run_cycles st cycles).onboardingComplete = true) := by
  refine ⟨?_, ?_, ?_⟩
  · intro h
    cases f with
    | fetchFailure => exact h
    | ok np emails =>
      by_cases he : emails.isEmpty
      · simpa [process_user_emails, he]
      · cases hp : pyTruthyStr np <;> simp [process_user_emails, he, hp, h]
  · intro h
    cases f with
    | fetchFailure =>
      simp [process_user_emails, h]
    | ok np emails =>
      cases emails with
      | nil => simp [process_user_emails, h]
      | cons e rest =>
        cases hp : pyTruthyStr np with
        | true =>
          have hl : (process_user_emails now st
              (FetchOutcome.ok np (e :: rest))).onboardingComplete = false := by
            simp [process_user_emails, hp, h]
          rw [hl]
          constructor
          · intro hx; exact absurd hx (by decide)
          · rintro ⟨np', em', heq, -, hptr⟩
            injection heq with h1 h2
            subst h1
            rw [hp] at hptr
            exact absurd hptr (by decide)
        | false =>
          have hl : (process_user_emails now st
              (FetchOutcome.ok np (e :: rest))).onboardingComplete = true := by
            simp [process_user_emails, hp]
          exact ⟨fun _ => ⟨np, e :: rest, rfl, by simp, hp⟩, fun _ => hl⟩
  · intro h
    induction cycles generalizing st with
    | nil => exact h
    | cons c rest ih =>
      have : cycle_step c.1 st c.2 = st := by simp [cycle_step, h]
      simp only [run_cycles, this]
      exact ih st h

/-- Claim C3, witness: with the flag false, a cycle whose fetch returns one
thread and no next cursor flips the flag to true. -/
theorem onboarding_complete_monotone_flip_iff_checked :
    (process_user_emails 7 (UserState.mk (some "tok") false none)
      (FetchOutcome.ok none [ThreadEntry.mk "t" "h" none []])).onboardingComplete = true :=
  ((onboarding_complete_monotone_flip_iff 7 (UserState.mk (some "tok") false none)
      (FetchOutcome.ok none [ThreadEntry.mk "t" "h" none []]) []).2.1 rfl).mpr
    ⟨none, [ThreadEntry.mk "t" "h" none []], rfl, by decide, rfl⟩

/-- Claim C5: a thread reconstructed from more than one provider message has a
main message flagged `isThreadMessage = true` (the source's length
test), and `label_email` performs no classifier call and no label
mutation for such an entry: its action list is empty. -/
theorem thread_reply_skipped_no_events (analyze resolveLabel : String → String)
    (t : RawThread) (e : ThreadEntry)
    (h1 : build_thread t = some e) (h2 : 1 < t.messages.length) :
    (∃ m, e.mainEmail = some m ∧ m.isThreadMessage = true) ∧
    process_email analyze resolveLabel e = [] := by
  cases hm : t.messages with
  | nil => rw [hm] at h2; simp at h2
  | cons m0 ms =>
    rw [hm] at h2
    simp only [List.length_cons] at h2
    rw [build_thread, hm] at h1
    simp only [List.map_cons, List.length_cons] at h1
    obtain rfl : _ = e := Option.some.inj h1
    have hmain : (build_thread_message (ms.length + 1) m0).isThreadMessage = true := by
      simp only [build_thread_message, decide_eq_true_eq]
      omega
    exact ⟨⟨build_thread_message (ms.length + 1) m0, rfl, hmain⟩, by simp [process_email, hmain]⟩

/-- Claim C5, witness: the two-message thread `c5thread` reconstructs to
`c5entry`, and processing it issues no action. -/
theorem thread_reply_skipped_no_events_checked :
    process_email (fun _ => "extra") (fun _ => "Label_1") c5entry = [] :=
  (thread_reply_skipped_no_events (fun _ => "extra") (fun _ => "Label_1")
    c5thread c5entry
    (by simp [build_thread, c5thread, c5entry, build_thread_message, extract_body_text,
      extract_attachments, header_get])
    (by decide)).2

/-- Claim C8: the modify request built by `modify_message_labels` carries the
add list iff a non-empty add list was supplied (and then carries exactly
that list), likewise for the remove list; an absent or empty list is
omitted from the request body entirely. -/
theorem modify_body_omits_empty_lists (addIds removeIds : Option (List String)) :
    ((modify_message_labels_body addIds removeIds).addLabelIds ≠ none ↔
      ∃ l, addIds = some l ∧ l ≠ []) ∧
    (∀ l, addIds = some l → l ≠ [] →
      (modify_message_labels_body addIds removeIds).addLabelIds = some l) ∧
    ((modify_message_labels_body addIds removeIds).removeLabelIds ≠ none ↔
      ∃ l, removeIds = some l ∧ l ≠ []) ∧
    (∀ l, removeIds = some l → l ≠ [] →
      (modify_message_labels_body addIds removeIds).removeLabelIds = some l) := by
  refine ⟨?_, ?_, ?_, ?_⟩
  · cases addIds with
    | none => simp [modify_message_labels_body, pyTruthyOptList]
    | some l => cases l <;> simp [modify_message_labels_body, pyTruthyOptList]
  · intro l hl hne
    subst hl
    cases l with
    | nil => exact absurd rfl hne
    | cons x xs => simp [modify_message_labels_body, pyTruthyOptList]
  · cases removeIds with
    | none => simp [modify_message_labels_body, pyTruthyOptList]
    | some l => cases l <;> simp [modify_message_labels_body, pyTruthyOptList]
  · intro l hl hne
    subst hl
    cases l with
    | nil => exact absurd rfl hne
    | cons x xs => simp [modify_message_labels_body, pyTruthyOptList]

/-- Claim C8, witness: a non-empty add list is carried verbatim while an empty
remove list is omitted from the request. -/
theorem modify_body_omits_empty_lists_checked :
    (modify_message_labels_body (some ["A"]) (some [])).addLabelIds = some ["A"] ∧
    (modify_message_labels_body (some ["A"]) (some [])).removeLabelIds = none :=
  ⟨(modify_body_omits_empty_lists (some ["A"]) (some [])).2.1 ["A"] rfl (by decide), rfl⟩

/-- Claim C9: label synchronization is idempotent — applying the modify
request built from a fixed add/remove pair twice leaves the remote label
set where one application put it. -/
theorem sync_labels_idempotent (labels : Finset String)
    (addIds removeIds : Option (List String)) :
    sync_labels (sync_labels labels addIds removeIds) addIds removeIds =
      sync_labels labels addIds removeIds := by
  ext x
  simp only [sync_labels, apply_modify_request, Finset.mem_union, Finset.mem_sdiff]
  tauto

/-- Claim C10: for a message whose payload has no `'parts'` key, the body text
falls back to the payload's top-level body — its decoded `data` when
present, `""` when no inline data exists — and every provider message of
a non-empty thread is reconstructed into the thread entry (same count,
same ids, in order). -/
theorem payload_body_fallback (p : Payload) (hp : p.parts = none)
    (t : RawThread) (ht : t.messages ≠ []) :
    (∀ b d, p.body = some b → b.data = some d →
      extract_body_text p = decode_body (some d)) ∧
    (p.body.bind PartBody.data = none → extract_body_text p = "") ∧
    (∃ e, build_thread t = some e ∧
      e.threadMessages.length = t.messages.length ∧
      e.threadMessages.map EmailMessage.id = t.messages.map RawMessage.id) := by
  refine ⟨?_, ?_, ?_⟩
  · intro b d hb hd
    simp [extract_body_text, hp, hb, hd]
  · intro h
    cases hb : p.body with
    | none => simp [extract_body_text, hp, hb]
    | some b =>
      rw [hb] at h
      simp only [Option.some_bind] at h
      simp [extract_body_text, hp, hb, h]
  · cases hm : t.messages with
    | nil => exact absurd hm ht
    | cons m0 ms =>
      refine ⟨ThreadEntry.mk t.id t.historyId
        (some (build_thread_message (ms.length + 1) m0))
        ((m0 :: ms).map (build_thread_message (ms.length + 1))), ?_, ?_, ?_⟩
      · rw [build_thread, hm]
        simp
      · simp [hm]
      · show List.map EmailMessage.id
            (List.map (build_thread_message (ms.length + 1)) (m0 :: ms)) =
          List.map RawMessage.id (m0 :: ms)
        rw [List.map_map]
        congr 1

/-- Claim C10, witness: the part-less payload `c10payload` extracts the
decoded top-level body `"hi"`. -/
theorem payload_body_fallback_checked :
    extract_body_text c10payload = "hi" :=
  ((payload_body_fallback c10payload rfl c10thread (List.cons_ne_nil _ _)).1
    (PartBody.mk (some "aGk=") 2 none) "aGk=" rfl rfl).trans (by decide)

end EmailCore
